import Mathlib

/-!
Verification development for the ZenDB repository: a shallow embedding of
the SQL fragment helpers, the template model, the dialect renderer, the
table metadata model and the migration engine, with theorems settling the
specification claims.
-/

/-! ## JavaScript-value model (used by the fragment helpers)

Condition values handed to `where` / `buildCondition` are arbitrary
JavaScript values.  We model them with an inductive covering the cases the
code distinguishes: `null`, `undefined`, booleans, numbers, strings,
arrays and plain objects (an association list of key/value pairs). -/

inductive JSValue where
  | null
  | undefined
  | bool (b : Bool)
  | num (n : Int)
  | str (s : String)
  | arr (xs : List JSValue)
  | obj (fields : List (String × JSValue))

/-- Model of `Object.keys`: own enumerable keys of an object; for an array
the keys are the decimal index strings; every other value has no keys. -/
def jsKeys : JSValue → List String
  | .obj fs => fs.map (fun kv => kv.1)
  | .arr xs => (List.range xs.length).map Nat.repr
  | _ => []

/-- Model of `value === undefined`. -/
def JSValue.isUndefined : JSValue → Bool
  | .undefined => true
  | _ => false

/-- Model of `Array.isArray`. -/
def JSValue.isArr : JSValue → Bool
  | .arr _ => true
  | _ => false

/-- Elements of an array value (empty for non-arrays). -/
def JSValue.arrElems : JSValue → List JSValue
  | .arr xs => xs
  | _ => []

/-- Model of JavaScript truthiness, as used by `value.$isNull ? ... : ...`. -/
def jsTruthy : JSValue → Bool
  | .null => false
  | .undefined => false
  | .bool b => b
  | .num n => n != 0
  | .str s => s != ""
  | .arr _ => true
  | .obj _ => true

/-- Property access `value.k`: the value bound to key `k`, or `undefined`
when the key is absent or the value is not an object. -/
def jsGet (v : JSValue) (k : String) : JSValue :=
  match v with
  | .obj fs => ((fs.find? (fun kv => kv.1 == k)).map (fun kv => kv.2)).getD .undefined
  | _ => .undefined

/-- Model of `k.startsWith("$")`. -/
def startsWithDollar (s : String) : Bool :=
  match s.data with
  | [] => false
  | c :: _ => c == '$'

/-! ## Fragment helpers (`where`, `buildCondition` and friends) -/

/-- Embedding of `toSnakeCase`: replace every ASCII capital letter with an
underscore followed by its lowercase form (`str.replace(/[A-Z]/g, ...)`). -/
def toSnakeCase (s : String) : String :=
  String.mk (s.data.foldr
    (fun c acc => if c.isUpper then '_' :: c.toLower :: acc else c :: acc) [])

/-- Embedding of `toColumnName`: apply `toSnakeCase` only under the
`snake_case` casing convention; `camelCase`/`none` keep the field name. -/
def toColumnName (field : String) (casing : String) : String :=
  if casing = "snake_case" then toSnakeCase field else field

/-- Embedding of `isOperatorObject`: a non-null object value with at least
one key, all of whose keys begin with `$`. -/
def isOperatorObject (value : JSValue) : Bool :=
  match value with
  | .null => false
  | .undefined => false
  | .bool _ => false
  | .num _ => false
  | .str _ => false
  | .arr xs => (jsKeys (.arr xs)).length > 0 && (jsKeys (.arr xs)).all startsWithDollar
  | .obj fs => (jsKeys (.obj fs)).length > 0 && (jsKeys (.obj fs)).all startsWithDollar

/-- One `if (...) { parts.push(...); params.push(...) }` block of
`buildCondition`: conditionally append one clause and its parameters. -/
def pushIf (c : Bool) (x : String) (q : List JSValue)
    (p : List String × List JSValue) : List String × List JSValue :=
  if c then (p.1 ++ [x], p.2 ++ q) else p

/-- Embedding of `buildCondition`: build the condition fragment for one
field.  An operator object expands each present operator in source order
(`$eq`, `$neq`, `$lt`, `$gt`, `$gte`, `$lte`, `$like`, `$in`, `$isNull`),
joined with `" AND "`; any other value is the `$eq` shorthand. -/
def buildCondition (column : String) (value : JSValue) :
    String × List JSValue :=
  if isOperatorObject value then
    let p0 : List String × List JSValue := ([], [])
    let p1 := pushIf (!(jsGet value "$eq").isUndefined)
      (column ++ " = ?") [jsGet value "$eq"] p0
    let p2 := pushIf (!(jsGet value "$neq").isUndefined)
      (column ++ " != ?") [jsGet value "$neq"] p1
    let p3 := pushIf (!(jsGet value "$lt").isUndefined)
      (column ++ " < ?") [jsGet value "$lt"] p2
    let p4 := pushIf (!(jsGet value "$gt").isUndefined)
      (column ++ " > ?") [jsGet value "$gt"] p3
    let p5 := pushIf (!(jsGet value "$gte").isUndefined)
      (column ++ " >= ?") [jsGet value "$gte"] p4
    let p6 := pushIf (!(jsGet value "$lte").isUndefined)
      (column ++ " <= ?") [jsGet value "$lte"] p5
    let p7 := pushIf (!(jsGet value "$like").isUndefined)
      (column ++ " LIKE ?") [jsGet value "$like"] p6
    let p8 := pushIf (jsGet value "$in").isArr
      (column ++ " IN (" ++
        String.intercalate ", " ((jsGet value "$in").arrElems.map (fun _ => "?")) ++ ")")
      (jsGet value "$in").arrElems p7
    let p9 := pushIf (!(jsGet value "$isNull").isUndefined)
      (if jsTruthy (jsGet value "$isNull") then column ++ " IS NULL"
       else column ++ " IS NOT NULL") [] p8
    (String.intercalate " AND " p9.1, p9.2)
  else
    (column ++ " = ?", [value])

/-- Embedding of the fragment helper `where` (`where` is a reserved word in
Lean).  The table argument only contributes `table._meta.casing`, which is
passed here directly; the conditions object is its entry list.  The
returned fragment is modelled as its (sql, params) pair. -/
def whereFrag (casing : String) (conditions : List (String × JSValue)) :
    String × List JSValue :=
  if conditions.isEmpty then ("1 = 1", [])
  else
    let r := conditions.foldl
      (fun (acc : List String × List JSValue) e =>
        if e.2.isUndefined then acc
        else
          let column := toColumnName e.1 casing
          let condition := buildCondition column e.2
          (acc.1 ++ [condition.1], acc.2 ++ condition.2))
      ([], [])
    if r.1.isEmpty then ("1 = 1", [])
    else (String.intercalate " AND " r.1, r.2)

/-! ## Template model (`template.ts`) -/

/-- A template tuple: literal string segments interleaved with values.
The intended invariant is `strings.length = values.length + 1`.  Values
are `unknown[]` in the source, modelled by a type parameter. -/
structure TemplateTuple (α : Type) where
  strings : List String
  values : List α

/-- Embedding of `mergeTemplate`: append the template's first string onto
the accumulator's last string, then push each remaining (value, string)
pair.  The mutated accumulator arrays are returned as a pair. -/
def mergeTemplate {α : Type} (strings : List String) (values : List α)
    (template : TemplateTuple α) : List String × List α :=
  (strings.dropLast ++ [strings.getLastD "" ++ template.strings.headD ""]
     ++ (List.range template.values.length).map
          (fun i => template.strings.getD (i + 1) ""),
   values ++ template.values)

/-! ## Dialect renderer (`sql.ts`)

`builtins.js` (the `isSQLBuiltin` / `resolveSQLBuiltin` module) is not
among the provided sources, so the builtin marker itself is modelled from
the spec; everything else in this section is translated from `sql.ts`. -/

/-- Modelled from the spec: `builtins.js` is missing from the sources.  A
builtin marker is "a tagged value representing a dialect-resolvable
expression ... resolved to literal SQL text at render time"; we model the
marker as carrying the literal SQL text `resolveSQLBuiltin` resolves it
to (`resolveSQLBuiltin` takes no dialect argument at its call sites). -/
structure SQLBuiltin where
  sqlText : String
deriving DecidableEq

/-- Modelled from the spec: resolve a builtin marker to its SQL text. -/
def resolveSQLBuiltin (b : SQLBuiltin) : String := b.sqlText

/-- Literal (non-marker) values a template can interpolate, as the cases
`inlineLiteral` distinguishes. -/
inductive Lit where
  | null
  | undefined
  | bool (b : Bool)
  | num (n : Int)
  | str (s : String)
  | date (iso : String)
deriving DecidableEq

/-- A value interpolated into a SQL template: an identifier marker, a
builtin marker, or a plain value. -/
inductive SQLValue where
  | ident (name : String)
  | builtin (b : SQLBuiltin)
  | plain (l : Lit)
deriving DecidableEq

/-- Embedding of `isSQLIdentifier`: only identifier markers carry the
`SQL_IDENT` symbol (builtin markers do not, so they test false). -/
def isSQLIdentifier : SQLValue → Bool
  | .ident _ => true
  | _ => false

/-- Embedding of `isSQLBuiltin`. -/
def isSQLBuiltin : SQLValue → Bool
  | .builtin _ => true
  | _ => false

/-- A plain (non-marker) interpolated value. -/
def isPlainValue : SQLValue → Bool
  | .plain _ => true
  | _ => false

/-- Double every occurrence of the character `c` in `s`; the model of
`name.replace(/c/g, "cc")` for a single character `c`. -/
def doubleChar (c : Char) (s : String) : String :=
  String.mk (s.data.foldr
    (fun ch acc => if ch = c then c :: c :: acc else ch :: acc) [])

/-- Embedding of `quoteIdent`: MySQL uses backticks, every other dialect
value takes the double-quote branch; the quote character inside the name
is escaped by doubling.  (`Char.ofNat 96` is the backtick, `Char.ofNat 34`
the double quote.) -/
def quoteIdent (name : String) (dialect : String) : String :=
  if dialect = "mysql" then
    "`" ++ doubleChar (Char.ofNat 96) name ++ "`"
  else
    "\"" ++ doubleChar (Char.ofNat 34) name ++ "\""

/-- Embedding of `placeholder`: PostgreSQL uses `$n`, every other dialect
value takes the `?` branch. -/
def placeholder (index : Nat) (dialect : String) : String :=
  if dialect = "postgresql" then "$" ++ Nat.repr index else "?"

/-- Loop of `renderSQL`: walk the string segments; while values remain,
an identifier marker is quoted inline and any other value (builtin
markers included) is pushed onto `params` and replaced by a placeholder
numbered by the cumulative parameter count. -/
def renderSQLGo (dialect : String) :
    List String → List SQLValue → List SQLValue → String × List SQLValue
  | [], _, params => ("", params)
  | s :: srest, [], params =>
      let r := renderSQLGo dialect srest [] params
      (s ++ r.1, r.2)
  | s :: srest, v :: vrest, params =>
      match v with
      | .ident name =>
          let r := renderSQLGo dialect srest vrest params
          (s ++ quoteIdent name dialect ++ r.1, r.2)
      | vv =>
          let r := renderSQLGo dialect srest vrest (params ++ [vv])
          (s ++ placeholder (params.length + 1) dialect ++ r.1, r.2)

/-- Embedding of `renderSQL`. -/
def renderSQL (strings : List String) (values : List SQLValue)
    (dialect : String) : String × List SQLValue :=
  renderSQLGo dialect strings values []

/-- Embedding of `inlineLiteral`: DDL-mode inlining of literal values. -/
def inlineLiteral (l : Lit) (dialect : String) : String :=
  match l with
  | .null => "NULL"
  | .undefined => "NULL"
  | .bool b =>
      if dialect = "sqlite" then (if b then "1" else "0")
      else (if b then "TRUE" else "FALSE")
  | .num n => n.repr
  | .str s => "'" ++ doubleChar (Char.ofNat 39) s ++ "'"
  | .date iso => "'" ++ iso ++ "'"

/-- Loop of `renderDDL`: builtins resolve to SQL text, identifiers are
quoted, and every other value is inlined as a literal; no parameters. -/
def renderDDLGo (dialect : String) : List String → List SQLValue → String
  | [], _ => ""
  | s :: srest, [] => s ++ renderDDLGo dialect srest []
  | s :: srest, v :: vrest =>
      s ++ (match v with
            | .builtin b => resolveSQLBuiltin b
            | .ident name => quoteIdent name dialect
            | .plain l => inlineLiteral l dialect)
        ++ renderDDLGo dialect srest vrest

/-- Embedding of `renderDDL`. -/
def renderDDL (strings : List String) (values : List SQLValue)
    (dialect : String) : String :=
  renderDDLGo dialect strings values

/-- Loop of `buildSQL`: walk the values; builtins and identifiers are
inlined followed by the next string segment, all other values become
placeholders and are pushed onto `params`. -/
def buildSQLGo (dialect : String) :
    List SQLValue → List String → List SQLValue → String × List SQLValue
  | [], _, params => ("", params)
  | v :: vrest, strs, params =>
      match v with
      | .builtin b =>
          let r := buildSQLGo dialect vrest strs.tail params
          (resolveSQLBuiltin b ++ strs.headD "" ++ r.1, r.2)
      | .ident name =>
          let r := buildSQLGo dialect vrest strs.tail params
          (quoteIdent name dialect ++ strs.headD "" ++ r.1, r.2)
      | .plain l =>
          let r := buildSQLGo dialect vrest strs.tail (params ++ [SQLValue.plain l])
          (placeholder (params.length + 1) dialect ++ strs.headD "" ++ r.1, r.2)

/-- Embedding of `buildSQL`: starts from `strings[0]` and interleaves. -/
def buildSQL (strings : List String) (values : List SQLValue)
    (dialect : String) : String × List SQLValue :=
  let r := buildSQLGo dialect values strings.tail []
  (strings.headD "" ++ r.1, r.2)

/-! ## Table metadata model (`table.ts`) -/

/-- Reference metadata recorded on a field wrapper: `{table, field?, as,
onDelete?}`.  The target table is identified by its name here, which is
all `pick` and the claims inspect. -/
structure RefMeta where
  tableName : String
  field : Option String
  asName : String
  onDelete : Option String
deriving DecidableEq

/-- Per-field database metadata recorded by the `primary` / `unique` /
`index` / `references` wrappers. -/
structure FieldDbMeta where
  primaryKey : Bool := false
  unique : Bool := false
  indexed : Bool := false
  reference : Option RefMeta := none
deriving DecidableEq

/-- A resolved reference entry of `_meta.references`. -/
structure ReferenceInfo where
  fieldName : String
  tableName : String
  referencedField : String
  asName : String
  onDelete : Option String
deriving DecidableEq

/-- The `_meta` record of a table. -/
structure MetaRec where
  primary : Option String
  unique : List String
  indexed : List String
  references : List ReferenceInfo
  fields : List (String × FieldDbMeta)
deriving DecidableEq

/-- A table object: its name, the ordered keys of `zodShape` (which are
exactly the keys of the `fields()` result), the `_meta` record, and the
compound index definitions. -/
structure Table where
  name : String
  shapeKeys : List String
  meta : MetaRec
  indexes : List (List String)
deriving DecidableEq

/-- Keys of the `fields()` result: `fields()` iterates
`Object.entries(zodShape)`, so its keys are exactly `shapeKeys`. -/
def fieldsKeys (t : Table) : List String :=
  t.shapeKeys

/-- Embedding of `pick`: project the schema to the given fields, filter
per-field metadata, keep the primary key only if picked, filter
unique/indexed/reference lists to picked fields, and keep a compound
index only when every member field is picked. -/
def pick (t : Table) (fs : List String) : Table :=
  { name := t.name
    shapeKeys := fs.filter (fun f => t.shapeKeys.contains f)
    meta :=
      { primary :=
          match t.meta.primary with
          | some p => if fs.contains p then some p else none
          | none => none
        unique := t.meta.unique.filter (fun f => fs.contains f)
        indexed := t.meta.indexed.filter (fun f => fs.contains f)
        references := t.meta.references.filter (fun r => fs.contains r.fieldName)
        fields := t.meta.fields.filter (fun kv => fs.contains kv.1) }
    indexes := t.indexes.filter (fun idx => idx.all (fun f => fs.contains f)) }

/-! ## Migration engine

The `Database` implementation (`database.ts`) is not among the provided
sources — only its test suite is — so the engine is modelled from the
spec, with the version-plateau branch pinned to the behaviour the test
suite asserts. -/

/-- Modelled from the spec: the upgrade event's version payload. -/
structure UpgradeEvent where
  oldVersion : Nat
  newVersion : Nat
deriving DecidableEq

/-- Modelled from the spec: failure modes of `open`. -/
inductive OpenError where
  | alreadyOpened
  | migrationFailed (msg : String)
deriving DecidableEq

/-- Modelled from the spec: observable database state — the `opened`
flag, the instance `version` (initially 0), and the versions recorded in
the `_migrations` store. -/
structure DBState where
  opened : Bool
  version : Nat
  migrations : List Nat
deriving DecidableEq

/-- Modelled from the spec: `MAX(version)` over `_migrations`, with 0 for
an empty store. -/
def maxVersion (ms : List Nat) : Nat :=
  ms.foldr max 0

/-- Modelled from the spec: the outcome of one `open` call — the
resulting state, the `upgradeneeded` event dispatched (if any), and the
error the call rejected with (if any). -/
structure OpenResult where
  state : DBState
  fired : Option UpgradeEvent
  error : Option OpenError
deriving DecidableEq

/-- Modelled from the spec: `open(targetVersion)`.  `database.ts` is
missing from the sources; this follows spec §4.6 and the migration test
suite.  `work` stands for the aggregate outcome of the asynchronous
migration units registered via `waitUntil` (`none` = all succeed, `some
msg` = some unit rejects with `msg`).  Opening an already-open instance
fails; if `targetVersion` exceeds the stored maximum an upgrade event
fires and, on success, a record for `targetVersion` is written and the
version set; if any unit fails, the call rejects, no record is written
and the version stays at the pre-upgrade value; otherwise no event fires
and the version is set to `targetVersion` (the behaviour the test "does
NOT fire if requested version is lower" asserts). -/
def openDB (st : DBState) (targetVersion : Nat) (work : Option String) :
    OpenResult :=
  if st.opened then
    { state := st, fired := none, error := some .alreadyOpened }
  else
    let currentVersion := maxVersion st.migrations
    if currentVersion < targetVersion then
      let ev : UpgradeEvent :=
        { oldVersion := currentVersion, newVersion := targetVersion }
      match work with
      | some msg =>
          { state := { st with version := currentVersion }
            fired := some ev
            error := some (.migrationFailed msg) }
      | none =>
          { state :=
              { opened := true
                version := targetVersion
                migrations := st.migrations ++ [targetVersion] }
            fired := some ev
            error := none }
    else
      { state := { st with opened := true, version := targetVersion }
        fired := none
        error := none }

/-! ## Spec-side definitions

These follow the specification's words and are compared against the
embedded code by the refinement theorems. -/

/-- The fixed operator sequence the spec prescribes for clause order:
eq, neq, lt, gt, gte, lte, like, in, isNull. -/
def opKeys : List String :=
  ["$eq", "$neq", "$lt", "$gt", "$gte", "$lte", "$like", "$in", "$isNull"]

/-- The condition operators, named as in the spec's fixed sequence. -/
inductive SpecOp where
  | eq | neq | lt | gt | gte | lte | like | inOp | isNull
deriving DecidableEq

/-- The fixed operator expansion order the spec prescribes:
eq, neq, lt, gt, gte, lte, like, in, isNull. -/
def specOpOrder : List SpecOp :=
  [.eq, .neq, .lt, .gt, .gte, .lte, .like, .inOp, .isNull]

/-- Spec-side clause for one operator of a condition object: the
column-comparison clause the spec prescribes when the operator is
present, `none` when absent. -/
def specClause (column : String) (value : JSValue) : SpecOp → Option String
  | .eq =>
      if !(jsGet value "$eq").isUndefined then some (column ++ " = ?") else none
  | .neq =>
      if !(jsGet value "$neq").isUndefined then some (column ++ " != ?") else none
  | .lt =>
      if !(jsGet value "$lt").isUndefined then some (column ++ " < ?") else none
  | .gt =>
      if !(jsGet value "$gt").isUndefined then some (column ++ " > ?") else none
  | .gte =>
      if !(jsGet value "$gte").isUndefined then some (column ++ " >= ?") else none
  | .lte =>
      if !(jsGet value "$lte").isUndefined then some (column ++ " <= ?") else none
  | .like =>
      if !(jsGet value "$like").isUndefined then some (column ++ " LIKE ?") else none
  | .inOp =>
      if (jsGet value "$in").isArr then
        some (column ++ " IN (" ++
          String.intercalate ", "
            ((jsGet value "$in").arrElems.map (fun _ => "?")) ++ ")")
      else none
  | .isNull =>
      if !(jsGet value "$isNull").isUndefined then
        some (if jsTruthy (jsGet value "$isNull") then column ++ " IS NULL"
              else column ++ " IS NOT NULL")
      else none

/-- Spec-side rendering of a purely-plain template in the Postgres-style
dialect: the string segments interleaved with placeholders `$(k+1)`,
`$(k+2)`, ..., numbered by cumulative parameter count. -/
def pgNumberedSQL : List String → Nat → String
  | [], _ => ""
  | [s], _ => s
  | s :: s2 :: rest, k =>
      s ++ "$" ++ Nat.repr (k + 1) ++ pgNumberedSQL (s2 :: rest) (k + 1)

/-! ## Helper lemmas -/

/-- Reading off a list by index with `getD` recovers the list. -/
lemma range_map_getD {α : Type} (d : α) :
    ∀ (l : List α), (List.range l.length).map (fun i => l.getD i d) = l := by
  intro l
  induction l with
  | nil => rfl
  | cons x xs ih =>
    rw [List.length_cons, List.range_succ_eq_map, List.map_cons, List.map_map]
    simp only [Function.comp_def, List.getD_cons_zero, List.getD_cons_succ]
    rw [ih]

/-- Reading off positions `1..n` of a list of length `n + 1` with `getD`
recovers its tail. -/
lemma range_map_getD_succ {α : Type} (d : α) (l : List α) (n : Nat)
    (h : l.length = n + 1) :
    (List.range n).map (fun i => l.getD (i + 1) d) = l.tail := by
  cases l with
  | nil => simp at h
  | cons x xs =>
    have hx : xs.length = n := by simpa using h
    subst hx
    simpa only [List.getD_cons_succ] using range_map_getD d xs

/-- `contains` agrees with membership on string lists. -/
lemma contains_iff (l : List String) (a : String) :
    l.contains a = true ↔ a ∈ l :=
  List.elem_iff

/-- The parameter list `renderSQLGo` returns when no values remain is the
accumulated one. -/
lemma renderSQLGo_nil_values (d : String) :
    ∀ (strings : List String) (params : List SQLValue),
      (renderSQLGo d strings [] params).2 = params := by
  intro strings
  induction strings with
  | nil => intro params; rfl
  | cons s srest ih => intro params; simp [renderSQLGo, ih]

/-- On a purely-plain value list shorter than the string-segment list,
`renderSQLGo` appends exactly those values to the parameter
accumulator, in order. -/
lemma renderSQLGo_plain_params (d : String) :
    ∀ (values : List SQLValue) (strings : List String) (params : List SQLValue),
      values.length < strings.length →
      (∀ v ∈ values, isPlainValue v = true) →
      (renderSQLGo d strings values params).2 = params ++ values := by
  intro values
  induction values with
  | nil => intro strings params _ _; simp [renderSQLGo_nil_values]
  | cons v vs ih =>
    intro strings params hlen hplain
    cases strings with
    | nil => simp at hlen
    | cons s srest =>
      cases v with
      | ident name =>
          have h := hplain _ (List.mem_cons_self _ _)
          simp [isPlainValue] at h
      | builtin b =>
          have h := hplain _ (List.mem_cons_self _ _)
          simp [isPlainValue] at h
      | plain l =>
          have hrec := ih srest (params ++ [SQLValue.plain l])
            (by simpa using Nat.lt_of_succ_lt_succ hlen)
            (fun w hw => hplain w (List.mem_cons_of_mem _ hw))
          simp [renderSQLGo, hrec]

/-- On a purely-plain template, `renderSQLGo` in the Postgres-style
dialect produces the spec's numbered interleaving, starting the count at
the accumulated parameter count. -/
lemma renderSQLGo_plain_pg :
    ∀ (values : List SQLValue) (strings : List String) (params : List SQLValue),
      strings.length = values.length + 1 →
      (∀ v ∈ values, isPlainValue v = true) →
      (renderSQLGo "postgresql" strings values params).1 =
        pgNumberedSQL strings params.length := by
  intro values
  induction values with
  | nil =>
    intro strings params hlen _
    cases strings with
    | nil => simp at hlen
    | cons s srest =>
      cases srest with
      | nil => simp [renderSQLGo, pgNumberedSQL]
      | cons s2 rest => simp at hlen
  | cons v vs ih =>
    intro strings params hlen hplain
    cases strings with
    | nil => simp at hlen
    | cons s srest =>
      cases srest with
      | nil => simp at hlen
      | cons s2 rest =>
        cases v with
        | ident name =>
            have h := hplain _ (List.mem_cons_self _ _)
            simp [isPlainValue] at h
        | builtin b =>
            have h := hplain _ (List.mem_cons_self _ _)
            simp [isPlainValue] at h
        | plain l =>
            have hrec := ih (s2 :: rest) (params ++ [SQLValue.plain l])
              (by simpa using hlen)
              (fun w hw => hplain w (List.mem_cons_of_mem _ hw))
            simp only [renderSQLGo, hrec, pgNumberedSQL, placeholder,
              List.length_append, List.length_cons, List.length_nil,
              if_pos rfl]
            simp [String.append_assoc]

/-- First component of one conditional clause push. -/
lemma pushIf_fst (c : Bool) (x : String) (q : List JSValue)
    (p : List String × List JSValue) :
    (pushIf c x q p).1 = p.1 ++ (if c then [x] else []) := by
  cases c <;> simp [pushIf]

/-- `toList` of a conditional option. -/
lemma toList_if (c : Bool) (x : String) :
    ((if c then some x else none) : Option String).toList =
      if c then [x] else [] := by
  cases c <;> rfl

/-- Joining a one-element list leaves the element unchanged. -/
lemma intercalate_single (sep s : String) : String.intercalate sep [s] = s :=
  rfl

/-- `filterMap` over a cons, phrased with `Option.toList`. -/
lemma filterMap_cons_toList {α β : Type} (f : α → Option β) (a : α)
    (l : List α) :
    (a :: l).filterMap f = (f a).toList ++ l.filterMap f := by
  cases h : f a <;> simp [List.filterMap_cons, h]

/-- The parameter list `buildSQLGo` accumulates is the input parameter
list followed by the non-marker values, in order. -/
lemma buildSQLGo_params (d : String) :
    ∀ (values : List SQLValue) (strs : List String) (params : List SQLValue),
      (buildSQLGo d values strs params).2 =
        params ++ values.filter (fun v => !(isSQLBuiltin v || isSQLIdentifier v)) := by
  intro values
  induction values with
  | nil => intro strs params; simp [buildSQLGo]
  | cons v vrest ih =>
    intro strs params
    cases v with
    | builtin b => simp [buildSQLGo, ih, isSQLBuiltin, isSQLIdentifier]
    | ident name => simp [buildSQLGo, ih, isSQLBuiltin, isSQLIdentifier]
    | plain l => simp [buildSQLGo, ih, isSQLBuiltin, isSQLIdentifier]

/-- With a dialect value that is neither `"mysql"` nor `"postgresql"`,
`renderSQLGo` behaves exactly as in the `"sqlite"` dialect. -/
lemma renderSQLGo_dialect_default {d : String}
    (h1 : d ≠ "mysql") (h2 : d ≠ "postgresql") :
    ∀ (strings : List String) (values params : List SQLValue),
      renderSQLGo d strings values params =
        renderSQLGo "sqlite" strings values params := by
  intro strings
  induction strings with
  | nil => intro values params; rfl
  | cons s srest ih =>
    intro values params
    cases values with
    | nil => simp [renderSQLGo, ih]
    | cons v vrest =>
      cases v with
      | ident name => simp [renderSQLGo, ih, quoteIdent, h1]
      | builtin b => simp [renderSQLGo, ih, placeholder, h2]
      | plain l => simp [renderSQLGo, ih, placeholder, h2]

/-- A version present in the migration store is at most the stored
maximum. -/
lemma le_maxVersion : ∀ {v : Nat} {ms : List Nat}, v ∈ ms → v ≤ maxVersion ms := by
  intro v ms
  induction ms with
  | nil => intro h; cases h
  | cons m rest ih =>
    intro h
    cases h with
    | head => exact Nat.le_max_left v (maxVersion rest)
    | tail _ h2 => exact Nat.le_trans (ih h2) (Nat.le_max_right m (maxVersion rest))

/-! ## Claims -/

/-- Claim C1 (code bug): the spec requires `where(table, {field: {$in:
[]}})` to yield an always-false, syntactically valid clause, never `IN
()`; the code emits exactly the invalid text `x IN ()` (with no
parameters) for an empty `$in` list. -/
theorem c1_empty_in_renders_invalid :
    whereFrag "none" [("x", JSValue.obj [("$in", JSValue.arr [])])] =
      ("x IN ()", []) ∧
    buildCondition "x" (JSValue.obj [("$in", JSValue.arr [])]) =
      ("x IN ()", []) :=
  ⟨rfl, rfl⟩

/-- Claim C2 (counterexample): `renderSQL` does not recognise builtin
markers — a builtin interpolated through `renderSQL` is bound as an
ordinary parameter (appearing in the returned parameter list) instead of
being spliced inline, refuting the claim for this rendering path. -/
theorem c2_counterexample :
    renderSQL ["SELECT ", ""] [SQLValue.builtin ⟨"CURRENT_TIMESTAMP"⟩] "sqlite" =
      ("SELECT ?", [SQLValue.builtin ⟨"CURRENT_TIMESTAMP"⟩]) :=
  rfl

/-- Claim C2 (amended): in `buildSQL` the parameter list is exactly the
non-marker values (so a builtin marker never appears in it), and both
`buildSQL` and `renderDDL` splice a builtin's resolved SQL text inline;
`renderSQL`, by contrast, does not handle builtin markers. -/
theorem c2_builtins_inlined (strings : List String) (values : List SQLValue)
    (d s1 s2 : String) (b : SQLBuiltin) :
    (buildSQL strings values d).2 =
      values.filter (fun v => !(isSQLBuiltin v || isSQLIdentifier v)) ∧
    buildSQL [s1, s2] [SQLValue.builtin b] d =
      (s1 ++ resolveSQLBuiltin b ++ s2, []) ∧
    renderDDL [s1, s2] [SQLValue.builtin b] d =
      s1 ++ resolveSQLBuiltin b ++ s2 := by
  refine ⟨?_, ?_, ?_⟩
  · simp [buildSQL, buildSQLGo_params]
  · simp [buildSQL, buildSQLGo, String.append_assoc]
  · simp [renderDDL, renderDDLGo, String.append_assoc]

/-- Claim C3 (counterexample): opening with target version 2 over a store
whose recorded maximum is 3 fires no event but sets the instance version
to the lower requested value 2 — not the stored maximum — refuting the
plateau reading of the claim (this matches the test "does NOT fire if
requested version is lower", which expects `db.version` to be 2). -/
theorem c3_counterexample :
    (openDB ⟨false, 0, [3]⟩ 2 none).fired = none ∧
    (openDB ⟨false, 0, [3]⟩ 2 none).state.version = 2 ∧
    ¬(maxVersion [3] ≤ (openDB ⟨false, 0, [3]⟩ 2 none).state.version) :=
  ⟨rfl, rfl, by decide⟩

/-- Claim C3 (amended): for `open(targetVersion)` with `targetVersion`
at most the stored maximum, no upgrade event fires, no error occurs, no
migration record is written, and the instance version is set to
`targetVersion` unconditionally — a request below the stored version
rewrites the version to the lower requested value. -/
theorem c3_version_plateau (st : DBState) (target : Nat) (work : Option String)
    (hopen : st.opened = false) (hle : target ≤ maxVersion st.migrations) :
    openDB st target work =
      { state := { st with opened := true, version := target }
        fired := none
        error := none } := by
  simp [openDB, hopen, Nat.not_lt.mpr hle]

/-- Claim C3 (witness): the amended behaviour at the test's concrete
input — stored maximum 3, requested version 2. -/
theorem c3_version_plateau_witness :
    openDB ⟨false, 0, [3]⟩ 2 none =
      { state := ⟨true, 2, [3]⟩, fired := none, error := none } :=
  c3_version_plateau ⟨false, 0, [3]⟩ 2 none rfl (by decide)

/-- Claim C4 (counterexample): rendering with the unknown dialect value
`"oracle"` does not fail — it silently produces the double-quote
identifier quoting and `?` placeholder defaults. -/
theorem c4_counterexample :
    renderSQL ["SELECT * FROM ", " WHERE x = ", ""]
        [SQLValue.ident "users", SQLValue.plain (Lit.num 1)] "oracle" =
      ("SELECT * FROM \"users\" WHERE x = ?", [SQLValue.plain (Lit.num 1)]) ∧
    quoteIdent "users" "oracle" = "\"users\"" ∧
    placeholder 1 "oracle" = "?" :=
  ⟨rfl, rfl, rfl⟩

/-- Claim C4 (amended): there is no runtime dialect validation — any
dialect value other than `"mysql"` takes the double-quote branch of
`quoteIdent`, any value other than `"postgresql"` gets `?` placeholders,
and `renderSQL` on such a dialect behaves exactly as on `"sqlite"`;
rendering never fails with a configuration error. -/
theorem c4_dialect_fallback (d name : String) (i : Nat)
    (strings : List String) (values : List SQLValue)
    (h1 : d ≠ "mysql") (h2 : d ≠ "postgresql") :
    quoteIdent name d = "\"" ++ doubleChar (Char.ofNat 34) name ++ "\"" ∧
    placeholder i d = "?" ∧
    renderSQL strings values d = renderSQL strings values "sqlite" := by
  refine ⟨by simp [quoteIdent, h1], by simp [placeholder, h2], ?_⟩
  simp [renderSQL, renderSQLGo_dialect_default h1 h2]

/-- Claim C4 (witness): the fallback behaviour at the unknown dialect
`"oracle"`. -/
theorem c4_dialect_fallback_witness :
    quoteIdent "users" "oracle" =
      "\"" ++ doubleChar (Char.ofNat 34) "users" ++ "\"" ∧
    placeholder 1 "oracle" = "?" ∧
    renderSQL ["x = ", ""] [SQLValue.plain (Lit.num 1)] "oracle" =
      renderSQL ["x = ", ""] [SQLValue.plain (Lit.num 1)] "sqlite" :=
  c4_dialect_fallback "oracle" "users" 1 ["x = ", ""]
    [SQLValue.plain (Lit.num 1)] (by decide) (by decide)

/-- Claim C5: when an upgrade's migration work fails, `open` rejects with
that failure, the migration store is unchanged (in particular no record
for the target version exists), and the reported version remains the
pre-upgrade stored maximum; the upgrade event had been dispatched with
the correct old/new versions. -/
theorem c5_failed_migration_not_recorded (st : DBState) (target : Nat)
    (msg : String) (hopen : st.opened = false)
    (hgt : maxVersion st.migrations < target) :
    (openDB st target (some msg)).error =
      some (OpenError.migrationFailed msg) ∧
    (openDB st target (some msg)).state.migrations = st.migrations ∧
    target ∉ (openDB st target (some msg)).state.migrations ∧
    (openDB st target (some msg)).state.version = maxVersion st.migrations ∧
    (openDB st target (some msg)).fired =
      some ⟨maxVersion st.migrations, target⟩ := by
  have h : openDB st target (some msg) =
      { state := { st with version := maxVersion st.migrations }
        fired := some ⟨maxVersion st.migrations, target⟩
        error := some (OpenError.migrationFailed msg) } := by
    simp [openDB, hopen, hgt]
  rw [h]
  refine ⟨rfl, rfl, ?_, rfl, rfl⟩
  intro hmem
  exact absurd (le_maxVersion hmem) (Nat.not_le.mpr hgt)

/-- Claim C6: given the structural invariant on both the accumulator and
the fragment, `mergeTemplate` appends the fragment's first literal
segment onto the accumulator's last segment followed by the fragment's
remaining segments, its value sequence is the old values followed by the
fragment's values in order, and the invariant still holds afterwards. -/
theorem c6_mergeTemplate {α : Type} (strings : List String) (values : List α)
    (template : TemplateTuple α)
    (hacc : strings.length = values.length + 1)
    (ht : template.strings.length = template.values.length + 1) :
    (mergeTemplate strings values template).2 = values ++ template.values ∧
    (mergeTemplate strings values template).1 =
      strings.dropLast ++ [strings.getLastD "" ++ template.strings.headD ""]
        ++ template.strings.tail ∧
    (mergeTemplate strings values template).1.length =
      (mergeTemplate strings values template).2.length + 1 := by
  have htail : (List.range template.values.length).map
      (fun i => template.strings.getD (i + 1) "") = template.strings.tail :=
    range_map_getD_succ "" template.strings template.values.length ht
  have h1 : (mergeTemplate strings values template).1 =
      strings.dropLast ++ [strings.getLastD "" ++ template.strings.headD ""]
        ++ template.strings.tail := by
    show strings.dropLast ++ [strings.getLastD "" ++ template.strings.headD ""]
        ++ (List.range template.values.length).map
             (fun i => template.strings.getD (i + 1) "") = _
    rw [htail]
  refine ⟨rfl, h1, ?_⟩
  rw [h1]
  show _ = (values ++ template.values).length + 1
  simp only [List.length_append, List.length_dropLast, List.length_tail,
    List.length_cons, List.length_nil]
  omega

/-- Claim C6 (witness): merging a concrete two-segment fragment into a
concrete accumulator. -/
theorem c6_mergeTemplate_witness :
    (mergeTemplate ["SELECT * FROM t WHERE ", ""] [(1 : Nat)]
        ⟨["a = ", ""], [2]⟩).2 = [1, 2] ∧
    (mergeTemplate ["SELECT * FROM t WHERE ", ""] [(1 : Nat)]
        ⟨["a = ", ""], [2]⟩).1 = ["SELECT * FROM t WHERE ", "a = ", ""] ∧
    (mergeTemplate ["SELECT * FROM t WHERE ", ""] [(1 : Nat)]
        ⟨["a = ", ""], [2]⟩).1.length =
      (mergeTemplate ["SELECT * FROM t WHERE ", ""] [(1 : Nat)]
        ⟨["a = ", ""], [2]⟩).2.length + 1 :=
  c6_mergeTemplate ["SELECT * FROM t WHERE ", ""] [1] ⟨["a = ", ""], [2]⟩
    rfl rfl

/-- Claim C7: on a template whose interpolated values are all plain, the
returned parameter list equals the value list in length and order (for
every dialect), and the Postgres-style dialect renders the segments
interleaved with `$1 .. $n`, numbered by cumulative parameter count. -/
theorem c7_renderSQL_plain (strings : List String) (values : List SQLValue)
    (d : String) (hlen : strings.length = values.length + 1)
    (hplain : ∀ v ∈ values, isPlainValue v = true) :
    (renderSQL strings values d).2 = values ∧
    (renderSQL strings values "postgresql").1 = pgNumberedSQL strings 0 := by
  constructor
  · have h := renderSQLGo_plain_params d values strings [] (by omega) hplain
    simpa [renderSQL] using h
  · have h := renderSQLGo_plain_pg values strings [] hlen hplain
    simpa [renderSQL] using h

/-- Claim C7 (witness): a two-value plain template, in the MySQL dialect
for the parameter list plus the Postgres placeholder numbering. -/
theorem c7_renderSQL_plain_witness :
    (renderSQL ["a = ", " AND b = ", ""]
        [SQLValue.plain (Lit.num 1), SQLValue.plain (Lit.str "x")] "mysql").2 =
      [SQLValue.plain (Lit.num 1), SQLValue.plain (Lit.str "x")] ∧
    (renderSQL ["a = ", " AND b = ", ""]
        [SQLValue.plain (Lit.num 1), SQLValue.plain (Lit.str "x")]
        "postgresql").1 =
      pgNumberedSQL ["a = ", " AND b = ", ""] 0 :=
  c7_renderSQL_plain ["a = ", " AND b = ", ""]
    [SQLValue.plain (Lit.num 1), SQLValue.plain (Lit.str "x")] "mysql"
    rfl (by decide)

/-- Claim C8: `pick` over a duplicate-free subset of the table's field
names yields a table whose `fields()` keys are exactly the picked
fields, whose primary key survives exactly when picked, whose
unique/indexed lists, per-field metadata and references are filtered to
the picked set, and whose compound indexes survive exactly when every
member field is picked. -/
theorem c8_pick (t : Table) (fs : List String) (_hnd : fs.Nodup)
    (hsub : ∀ f ∈ fs, f ∈ t.shapeKeys) :
    fieldsKeys (pick t fs) = fs ∧
    (∀ p, (pick t fs).meta.primary = some p ↔
        (t.meta.primary = some p ∧ p ∈ fs)) ∧
    (∀ f, f ∈ (pick t fs).meta.unique ↔ (f ∈ t.meta.unique ∧ f ∈ fs)) ∧
    (∀ f, f ∈ (pick t fs).meta.indexed ↔ (f ∈ t.meta.indexed ∧ f ∈ fs)) ∧
    (∀ kv, kv ∈ (pick t fs).meta.fields ↔
        (kv ∈ t.meta.fields ∧ kv.1 ∈ fs)) ∧
    (∀ r, r ∈ (pick t fs).meta.references ↔
        (r ∈ t.meta.references ∧ r.fieldName ∈ fs)) ∧
    (∀ idx, idx ∈ (pick t fs).indexes ↔
        (idx ∈ t.indexes ∧ ∀ f ∈ idx, f ∈ fs)) := by
  refine ⟨?_, ?_, ?_, ?_, ?_, ?_, ?_⟩
  · show fs.filter (fun f => t.shapeKeys.contains f) = fs
    exact List.filter_eq_self.mpr
      (fun a ha => (contains_iff _ _).mpr (hsub a ha))
  · intro p
    show (match t.meta.primary with
          | some q => if fs.contains q then some q else none
          | none => none) = some p ↔ _
    cases hq : t.meta.primary with
    | none => simp
    | some q =>
      by_cases hin : fs.contains q
      · simp only [hin, if_pos rfl, if_true]
        constructor
        · intro h
          cases h
          exact ⟨rfl, (contains_iff _ _).mp hin⟩
        · intro h
          exact h.1
      · simp only [hin]
        constructor
        · intro h; simp at h
        · rintro ⟨hqp, hpfs⟩
          cases hqp
          exact absurd ((contains_iff _ _).mpr hpfs) hin
  · intro f
    simp [pick, List.mem_filter, contains_iff]
  · intro f
    simp [pick, List.mem_filter, contains_iff]
  · intro kv
    simp [pick, List.mem_filter, contains_iff]
  · intro r
    simp [pick, List.mem_filter, contains_iff]
  · intro idx
    simp [pick, List.mem_filter, List.all_eq_true, contains_iff]

/-- A sample table for the `pick` witness: a primary key, a unique
field, an indexed foreign key, and two compound indexes. -/
def sampleTable : Table :=
  { name := "posts"
    shapeKeys := ["id", "authorId", "title"]
    meta :=
      { primary := some "id"
        unique := ["title"]
        indexed := ["authorId"]
        references := [⟨"authorId", "users", "id", "author", none⟩]
        fields := [("id", ⟨true, false, false, none⟩)] }
    indexes := [["authorId", "title"], ["id"]] }

/-- Claim C8 (witness): picking `id` and `title` from the sample table. -/
theorem c8_pick_witness :
    fieldsKeys (pick sampleTable ["id", "title"]) = ["id", "title"] ∧
    ((pick sampleTable ["id", "title"]).meta.primary = some "id" ↔
      (sampleTable.meta.primary = some "id" ∧ "id" ∈ ["id", "title"])) :=
  ⟨(c8_pick sampleTable ["id", "title"] (by decide) (by decide)).1,
   (c8_pick sampleTable ["id", "title"] (by decide) (by decide)).2.1 "id"⟩

/-- Claim C9: on any operator object with at least two operator keys,
the clause text `buildCondition` produces is the `" AND "`-join of the
per-operator clauses taken in the spec's fixed order eq, neq, lt, gt,
gte, lte, like, in, isNull. -/
theorem c9_operator_order (column : String) (value : JSValue)
    (hop : isOperatorObject value = true)
    (_hkeys : 2 ≤ ((jsKeys value).filter (fun k => opKeys.contains k)).length) :
    (buildCondition column value).1 =
      String.intercalate " AND "
        (specOpOrder.filterMap (specClause column value)) := by
  unfold buildCondition
  simp only [hop, if_true]
  simp only [pushIf_fst, specOpOrder, specClause, filterMap_cons_toList,
    List.filterMap_nil, toList_if, List.nil_append, List.append_nil,
    List.append_assoc]

/-- Claim C9 (witness): a condition object carrying both `$eq` and
`$lt`. -/
theorem c9_operator_order_witness :
    (buildCondition "x"
        (JSValue.obj [("$eq", JSValue.num 1), ("$lt", JSValue.num 5)])).1 =
      String.intercalate " AND "
        (specOpOrder.filterMap (specClause "x"
          (JSValue.obj [("$eq", JSValue.num 1), ("$lt", JSValue.num 5)]))) :=
  c9_operator_order "x"
    (JSValue.obj [("$eq", JSValue.num 1), ("$lt", JSValue.num 5)])
    rfl (by decide)

/-- Claim C10: a condition value is expanded as an operator mapping
exactly when it is a plain object with at least one key, all of whose
keys begin with `$`; any other non-undefined value produces the single
equality clause binding the whole value as one parameter; and a sole
`$isNull` operator yields `IS NULL` when true and `IS NOT NULL` when
false, with no bound parameter. -/
theorem c10_condition_dispatch :
    (∀ v, isOperatorObject v = true ↔
      ∃ fs, v = JSValue.obj fs ∧ fs ≠ [] ∧
        ∀ kv ∈ fs, startsWithDollar kv.1 = true) ∧
    (∀ casing field v, v.isUndefined = false → isOperatorObject v = false →
      whereFrag casing [(field, v)] =
        (toColumnName field casing ++ " = ?", [v])) ∧
    (∀ column b,
      buildCondition column (JSValue.obj [("$isNull", JSValue.bool b)]) =
        ((if b then column ++ " IS NULL" else column ++ " IS NOT NULL"),
         [])) := by
  refine ⟨?_, ?_, ?_⟩
  · intro v
    constructor
    · intro h
      cases v with
      | obj fs =>
          refine ⟨fs, rfl, ?_, ?_⟩
          · simp only [isOperatorObject, jsKeys, Bool.and_eq_true] at h
            intro hnil
            rw [hnil] at h
            simp at h
          · simp only [isOperatorObject, jsKeys, Bool.and_eq_true,
              List.all_eq_true] at h
            intro kv hkv
            exact h.2 kv.1 (List.mem_map_of_mem _ hkv)
      | arr xs =>
          exfalso
          simp only [isOperatorObject, jsKeys, Bool.and_eq_true,
            List.all_eq_true] at h
          obtain ⟨hlen, hall⟩ := h
          cases xs with
          | nil => simp at hlen
          | cons a as =>
              have h0 : (0 : Nat) ∈ List.range (a :: as).length := by
                simp
              have hz := hall (Nat.repr 0) (List.mem_map_of_mem _ h0)
              exact absurd hz (by decide)
      | null => simp [isOperatorObject] at h
      | undefined => simp [isOperatorObject] at h
      | bool b => simp [isOperatorObject] at h
      | num n => simp [isOperatorObject] at h
      | str s => simp [isOperatorObject] at h
    · rintro ⟨fs, rfl, hne, hall⟩
      simp only [isOperatorObject, jsKeys, Bool.and_eq_true,
        List.all_eq_true]
      refine ⟨?_, ?_⟩
      · simp [List.length_pos, hne]
      · intro k hk
        obtain ⟨kv, hkv, rfl⟩ := List.mem_map.mp hk
        exact hall kv hkv
  · intro casing field v hundef hnotop
    simp [whereFrag, hundef, buildCondition, hnotop, intercalate_single]
  · intro column b
    cases b <;> rfl

/-- Claim C10 (witness): a plain number is the equality shorthand. -/
theorem c10_condition_dispatch_witness :
    whereFrag "none" [("x", JSValue.num 5)] = ("x = ?", [JSValue.num 5]) :=
  c10_condition_dispatch.2.1 "none" "x" (JSValue.num 5) rfl rfl

/-- Claim C5 (witness): the spec's concrete scenario — store at version
1, `open(2)` whose sole migration unit rejects. -/
theorem c5_failed_migration_witness :
    (openDB ⟨false, 0, [1]⟩ 2 (some "Failed")).error =
      some (OpenError.migrationFailed "Failed") ∧
    (openDB ⟨false, 0, [1]⟩ 2 (some "Failed")).state.migrations = [1] ∧
    2 ∉ (openDB ⟨false, 0, [1]⟩ 2 (some "Failed")).state.migrations ∧
    (openDB ⟨false, 0, [1]⟩ 2 (some "Failed")).state.version = maxVersion [1] ∧
    (openDB ⟨false, 0, [1]⟩ 2 (some "Failed")).fired = some ⟨maxVersion [1], 2⟩ :=
  c5_failed_migration_not_recorded ⟨false, 0, [1]⟩ 2 "Failed" rfl (by decide)
